import Mathlib

/-!
Shallow embedding of `edxval/models.py` (Video Abstraction Layer schema) and
proofs about its operations.

Modelling conventions:
* Each Django model class becomes a plain Lean record (`ProfileRec`, `VideoRec`,
  ...); a database table is a `List` of such records, an autoincrement primary
  key is a `Nat` field `id`.
* Timestamps are epoch seconds (`Nat`); `auto_now` semantics are made explicit
  by threading the current time `now` into the operations that save records.
* Django's `full_clean` is embedded as a function returning the first
  validation error found (`Option ValidationError`); a database-level
  constraint failure is the separate type `DbError`, mirroring the
  ValidationError / IntegrityError distinction of the framework.
* Fallible operations return `Except`, and every operation returns the new
  store alongside its result, so "the store is unchanged" is a provable
  equality.
-/

/-- The characters admitted by the character class of
`URL_REGEX = r'^[a-zA-Z0-9\-_]*$'` (models.py line 29): ASCII letters,
digits, hyphen and underscore. -/
def urlRegexChar (c : Char) : Bool :=
  c.isAlpha || c.isDigit || c = '-' || c = '_'

/-- The regex source text, as in models.py line 29. -/
def URL_REGEX : String := "^[a-zA-Z0-9\\-_]*$"

/-- Semantics of Python `re.search(URL_REGEX, s)` succeeding: the starred
class anchored at both ends matches exactly the strings all of whose
characters lie in the class; Python's `$` additionally matches just before a
single trailing newline. -/
def urlRegexMatch (s : String) : Bool :=
  s.toList.all urlRegexChar ||
    (s.toList.getLast? == some '\n' && (s.toList.dropLast).all urlRegexChar)

/-- Model-level validation failure, as raised by Django's `full_clean`
(the field whose declared rule was violated is recorded). -/
inductive ValidationError where
  /-- a required (non-blank) field was empty -/
  | blank (field : String)
  /-- a `max_length` bound was exceeded -/
  | maxLength (field : String)
  /-- a `RegexValidator` rejected the value -/
  | invalidChars (field : String)
  /-- a `MinValueValidator` rejected the value -/
  | minValue (field : String)
  /-- `validate_unique` found a conflicting row (`unique` / `unique_together`) -/
  | notUnique (fields : List String)
deriving DecidableEq, Repr

/-- Storage-layer constraint failure (Django `IntegrityError`), a type
distinct from `ValidationError`. -/
inductive DbError where
  | uniqueViolation
deriving DecidableEq, Repr

/-- Error surfaced by `get_or_create_with_validation`: either the validation
failure propagated from `create_with_validation`, or Django's
`MultipleObjectsReturned` escaping from `objects.get`. -/
inductive FactoryError where
  | validation (e : ValidationError)
  | multipleObjectsReturned
deriving DecidableEq, Repr

/-- Row of the `Profile` table (models.py lines 58-78). -/
structure ProfileRec where
  id : Nat
  profile_name : String
deriving DecidableEq, Repr

/-- Row of the `Video` table (models.py lines 81-126). `duration` is a
`FloatField` with `MinValueValidator(0)`; it is embedded over `Int` since
only the sign bound is ever relied upon. -/
structure VideoRec where
  id : Nat
  created : Nat
  edx_video_id : String
  client_video_id : String
  duration : Int
  status : String
deriving DecidableEq, Repr

/-- Row of the `CourseVideo` table (models.py lines 129-147); `video` is the
foreign key to `VideoRec.id`; `Meta.unique_together = ("course_id", "video")`. -/
structure CourseVideoRec where
  id : Nat
  course_id : String
  video : Nat
  is_hidden : Bool
deriving DecidableEq, Repr

/-- Row of the `EncodedVideo` table (models.py lines 150-161); `profile` and
`video` are foreign keys. -/
structure EncodedVideoRec where
  id : Nat
  created : Nat
  modified : Nat
  url : String
  file_size : Nat
  bitrate : Nat
  profile : Nat
  video : Nat
deriving DecidableEq, Repr

/-- Row of the `VideoImage` table (models.py lines 193-220): a
`TimeStampedModel` (`created`/`modified` epoch seconds) one-to-one with
`CourseVideo`; `image` holds the stored file name, `""` when blank. -/
structure VideoImageRec where
  id : Nat
  course_video : Nat
  image : String
  created : Nat
  modified : Nat
deriving DecidableEq, Repr

/-- Row of the `Subtitle` table (models.py lines 229-261). -/
structure SubtitleRec where
  id : Nat
  created : Nat
  modified : Nat
  video : Nat
  fmt : String
  language : String
  content : String
deriving DecidableEq, Repr

/-! ### ModelFactoryWithValidation (models.py lines 32-55)

The mixin is generic over the model class; here it is generic over the row
type `α`, the embedded `full_clean` of that model (which sees the current
table, as Django's `validate_unique` queries it), and — for the get path —
the lookup predicate induced by the keyword arguments. -/

/-- Embeds `ModelFactoryWithValidation.create_with_validation`: construct the
candidate, run `full_clean`, and only then `save`.  The Python method body has
no `return` statement, so on success the caller receives `None` (`.ok none`
here); on a validation failure the exception propagates and the table is
untouched. -/
def create_with_validation {α : Type} (full_clean : α → List α → Option ValidationError)
    (rows : List α) (x : α) : List α × Except ValidationError (Option α) :=
  match full_clean x rows with
  | some e => (rows, .error e)
  | none => (rows ++ [x], .ok none)

/-- Embeds `ModelFactoryWithValidation.get_or_create_with_validation`:
`objects.get(...)` returns the single row satisfying the lookup (raising
`MultipleObjectsReturned` on several, uncaught here); on `DoesNotExist` the
method falls back to `create_with_validation` and pairs its return value
with `True`. -/
def get_or_create_with_validation {α : Type}
    (full_clean : α → List α → Option ValidationError) (lookup : α → Bool)
    (rows : List α) (x : α) : List α × Except FactoryError (Option α × Bool) :=
  match rows.filter lookup with
  | [r] => (rows, .ok (some r, false))
  | [] =>
      let p := create_with_validation full_clean rows x
      (p.1, match p.2 with
            | .error e => .error (.validation e)
            | .ok v => .ok (v, true))
  | _ :: _ :: _ => (rows, .error .multipleObjectsReturned)

/-! ### Field cleaning for the concrete models

Django's `full_clean` checks, in order: per-field `validate` (which rejects an
empty value on a non-`blank` field before any validator runs), per-field
`run_validators` (skipped entirely for empty values; here `max_length` and the
declared `RegexValidator` / `MinValueValidator`), then `validate_unique`.
The embedding returns the first error in that order. -/

/-- Cleaning of `Profile.profile_name` (`max_length=50`, `unique=True`,
`RegexValidator(URL_REGEX)`, `blank=False` by default). -/
def Profile.clean_profile_name (value : String) : Option ValidationError :=
  if value = "" then some (.blank "profile_name")
  else if 50 < value.length then some (.maxLength "profile_name")
  else if urlRegexMatch value then none
  else some (.invalidChars "profile_name")

/-- Cleaning of `Video.edx_video_id` (`max_length=100`, `unique=True`,
`RegexValidator(URL_REGEX)`, `blank=False` by default). -/
def Video.clean_edx_video_id (value : String) : Option ValidationError :=
  if value = "" then some (.blank "edx_video_id")
  else if 100 < value.length then some (.maxLength "edx_video_id")
  else if urlRegexMatch value then none
  else some (.invalidChars "edx_video_id")

/-- Cleaning of `Video.duration` (`MinValueValidator(0)`). -/
def Video.clean_duration (value : Int) : Option ValidationError :=
  if value < 0 then some (.minValue "duration") else none

/-- `full_clean` of a `CourseVideo` candidate against the current table:
`course_id` is a required `CharField(max_length=255)`, and
`unique_together = ("course_id", "video")` is enforced by `validate_unique`. -/
def CourseVideo.full_clean (cv : CourseVideoRec) (rows : List CourseVideoRec) :
    Option ValidationError :=
  if cv.course_id = "" then some (.blank "course_id")
  else if 255 < cv.course_id.length then some (.maxLength "course_id")
  else if rows.any (fun r => r.course_id == cv.course_id && r.video == cv.video) then
    some (.notUnique ["course_id", "video"])
  else none

/-- The instantiation of the factory mixin actually used by `CourseVideo`
(the only class mixing in `ModelFactoryWithValidation`); the lookup kwargs
are the pair (`course_id`, `video`). -/
def courseVideoGetOrCreate (rows : List CourseVideoRec)
    (cv : CourseVideoRec) : List CourseVideoRec × Except FactoryError (Option CourseVideoRec × Bool) :=
  get_or_create_with_validation CourseVideo.full_clean
    (fun r => r.course_id == cv.course_id && r.video == cv.video) rows cv

/-- Storage-level insert into the `CourseVideo` table: the declared
`unique_together = ("course_id", "video")` constraint makes the insert of a
duplicate pair fail with an integrity error, leaving the table unchanged. -/
def CourseVideo.insert (rows : List CourseVideoRec) (cv : CourseVideoRec) :
    Except DbError (List CourseVideoRec) :=
  if rows.any (fun r => r.course_id == cv.course_id && r.video == cv.video) then
    .error .uniqueViolation
  else .ok (rows ++ [cv])

/-! ### Video.by_youtube_id (models.py lines 117-126) -/

/-- The in-memory database the queryset operations read. -/
structure Db where
  profiles : List ProfileRec
  videos : List VideoRec
  courseVideos : List CourseVideoRec
  encodedVideos : List EncodedVideoRec
  videoImages : List VideoImageRec
  subtitles : List SubtitleRec
deriving Repr

/-- A `Video` row together with its prefetched related collections, as
produced by `.prefetch_related('encoded_videos', 'courses', 'subtitles')`. -/
structure VideoWithRelated where
  video : VideoRec
  encoded_videos : List EncodedVideoRec
  courses : List CourseVideoRec
  subtitles : List SubtitleRec
deriving DecidableEq, Repr

/-- The filter condition of `by_youtube_id`: the video has some
`EncodedVideo` row whose `url` is the given id and whose `profile` row is
named exactly `"youtube"`. -/
def hasYoutubeEncoding (db : Db) (v : VideoRec) (youtube_id : String) : Bool :=
  db.encodedVideos.any (fun ev =>
    ev.video == v.id && ev.url == youtube_id &&
      db.profiles.any (fun p => p.id == ev.profile && p.profile_name == "youtube"))

/-- Embeds `Video.by_youtube_id`: filter the `Video` table on
`encoded_videos__profile__profile_name='youtube', encoded_videos__url=youtube_id`
and prefetch the three related collections of each hit. -/
def Video.by_youtube_id (db : Db) (youtube_id : String) : List VideoWithRelated :=
  (db.videos.filter (fun v => hasYoutubeEncoding db v youtube_id)).map
    (fun v =>
      { video := v
        encoded_videos := db.encodedVideos.filter (fun ev => ev.video == v.id)
        courses := db.courseVideos.filter (fun c => c.video == v.id)
        subtitles := db.subtitles.filter (fun s => s.video == v.id) })

/-! ### VideoImage.create_or_update (models.py lines 200-220) -/

/-- Index of the last `'.'` in a character list, if any. -/
def lastDotIdx : List Char → Option Nat
  | [] => none
  | c :: rest =>
      match lastDotIdx rest with
      | some i => some (i + 1)
      | none => if c = '.' then some 0 else none

/-- Embeds `os.path.splitext` for a plain file name (no directory
separators, which `create_or_update`'s `file_name` never contains): split at
the last dot, except that leading dots alone never start an extension
(`".bashrc"` has no extension). -/
def splitext (p : String) : String × String :=
  match lastDotIdx p.toList with
  | none => (p, "")
  | some i =>
      if (p.toList.take i).all (fun c => c = '.') then (p, "")
      else (⟨p.toList.take i⟩, ⟨p.toList.drop i⟩)

/-- Embeds `datetime.strftime("%s")`: the integer seconds-since-epoch of the
timestamp, printed in decimal. -/
def strftimeSeconds (t : Nat) : String := toString t

/-- The supplied image byte stream (`InMemoryUploadedFile`): its content and
whether `close()` has been called on it. -/
structure UploadStream where
  content : Nat
  closed : Bool
deriving DecidableEq, Repr

/-- Call `close()` on the stream. -/
def closeStream (s : UploadStream) : UploadStream := { s with closed := true }

/-- Failure of the external storage backend while saving the image. -/
inductive StorageError where
  | saveFailed
deriving DecidableEq, Repr

/-- Embeds `with closing(image_data) as image_file: body` (contextlib):
run the body on the stream and close the stream afterwards, whether the body
returned normally or raised. -/
def withClosing {β : Type} (s : UploadStream)
    (body : UploadStream → Except StorageError β × UploadStream) :
    Except StorageError β × UploadStream :=
  let p := body s
  (p.1, closeStream p.2)

/-- State touched by `VideoImage.create_or_update`: the `VideoImage` table,
the storage backend's files (name ↦ content), and the next autoincrement id. -/
structure ImageStore where
  rows : List VideoImageRec
  files : List (String × Nat)
  nextId : Nat
deriving DecidableEq, Repr

/-- The empty `ImageStore`. -/
def emptyImageStore : ImageStore := { rows := [], files := [], nextId := 0 }

/-- Write back a modified `VideoImage` row (matched by primary key). -/
def updateImageRow (rows : List VideoImageRec) (vi : VideoImageRec) :
    List VideoImageRec :=
  rows.map (fun r => if r.id == vi.id then vi else r)

/-- Modelled from the spec: the image storage backend (configured via
`get_video_image_storage`, which is not part of this fragment) accepts a
(path, byte stream) pair and stores the content under the computed file
name, silently overwriting any file already stored under that name. -/
def storageSave (name : String) (content : Nat) (files : List (String × Nat)) :
    Except StorageError (List (String × Nat)) :=
  .ok ((files.filter (fun p => p.1 ≠ name)) ++ [(name, content)])

/-- Embeds `VideoImage.create_or_update(course_video, image_data, file_name)`:
`objects.get_or_create(course_video=course_video)` (a plain existence check,
no validation; a fresh row starts with a blank image and both timestamps set
to `now`); then, with the stream scoped by `closing`, the file name is
rewritten to `video_image.modified.strftime("%s")` — the `modified` value of
the row as fetched, read immediately before the rename — concatenated with
the original extension; `image.save` stores the content and saves the model
(`auto_now` refreshes `modified`), and `video_image.save()` saves again.
The backend save operation is a parameter so that its failure can also be
considered; `storageSave` is the concrete backend. -/
def VideoImage.create_or_update
    (save : String → Nat → List (String × Nat) → Except StorageError (List (String × Nat)))
    (st : ImageStore) (course_video : Nat) (image_data : UploadStream)
    (file_name : String) (now : Nat) :
    Except StorageError (ImageStore × VideoImageRec × Bool) × UploadStream :=
  let got := st.rows.find? (fun r => r.course_video == course_video)
  let gc : VideoImageRec × Bool × ImageStore :=
    match got with
    | some r => (r, false, st)
    | none =>
        let r : VideoImageRec :=
          { id := st.nextId, course_video := course_video, image := ""
            created := now, modified := now }
        (r, true, { st with rows := st.rows ++ [r], nextId := st.nextId + 1 })
  let video_image := gc.1
  let created := gc.2.1
  let st0 := gc.2.2
  withClosing image_data (fun image_file =>
    let ext := (splitext file_name).2
    let fname := strftimeSeconds video_image.modified ++ ext
    match save fname image_file.content st0.files with
    | .error e => (.error e, image_file)
    | .ok files1 =>
        let vi1 := { video_image with image := fname, modified := now }
        let st1 := { st0 with files := files1, rows := updateImageRow st0.rows vi1 }
        let vi2 := { vi1 with modified := now }
        let st2 := { st1 with rows := updateImageRow st1.rows vi2 }
        (.ok (st2, vi2, created), image_file))

/-! ### Subtitle.content_type (models.py lines 253-261) -/

/-- Embeds the read-only property `Subtitle.content_type`: a pure function of
the row that mutates nothing. -/
def Subtitle.content_type (s : SubtitleRec) : String :=
  if s.fmt = "sjson" then "application/json" else "text/plain"

/-! ### post_save signal on Video (models.py lines 264-274) -/

/-- A record handed to the logging sink. -/
structure LogRecord where
  level : String
  msg : String
deriving DecidableEq, Repr

/-- The message logged when `created` is true. -/
def videoCreatedMsg (edx_video_id status : String) : String :=
  "VAL: Video created with id [" ++ edx_video_id ++ "] and status [" ++ status ++ "]"

/-- The message logged when `created` is false. -/
def statusChangedMsg (status edx_video_id : String) : String :=
  "VAL: Status changed to [" ++ status ++ "] for video [" ++ edx_video_id ++ "]"

/-- Embeds `video_status_update_callback`: branch on the `created` kwarg only,
and emit one `logger.info` record built from the instance's current fields. -/
def video_status_update_callback (created : Bool) (video : VideoRec)
    (log : List LogRecord) : List LogRecord :=
  if created then
    log ++ [{ level := "INFO", msg := videoCreatedMsg video.edx_video_id video.status }]
  else
    log ++ [{ level := "INFO", msg := statusChangedMsg video.status video.edx_video_id }]

/-- A `Video.save()`: an insertion when no row carries the primary key,
otherwise an update in place; either way the `post_save` signal fires and
`video_status_update_callback` receives the `created` flag and the instance. -/
def Video.save (videos : List VideoRec) (log : List LogRecord) (v : VideoRec) :
    List VideoRec × List LogRecord :=
  let created := videos.all (fun r => !(r.id == v.id))
  let videos' :=
    if created then videos ++ [v]
    else videos.map (fun r => if r.id == v.id then v else r)
  (videos', video_status_update_callback created v log)

/-! ### Sample records used by concrete witnesses -/

/-- A concrete `CourseVideo` candidate. -/
def sampleCourseVideo : CourseVideoRec :=
  { id := 0, course_id := "course-v1", video := 1, is_hidden := false }

/-- A concrete `Video` row. -/
def sampleVideo : VideoRec :=
  { id := 2, created := 0, edx_video_id := "vid-1", client_video_id := ""
    duration := 0, status := "upload" }

/-- A concrete `Subtitle` row with `fmt = "sjson"`. -/
def sampleSubtitle : SubtitleRec :=
  { id := 0, created := 0, modified := 0, video := 2, fmt := "sjson"
    language := "en", content := "" }

/-- A concrete database with one video encoded under the "youtube" profile. -/
def sampleDb : Db :=
  { profiles := [{ id := 1, profile_name := "youtube" }]
    videos := [sampleVideo]
    courseVideos := []
    encodedVideos := [{ id := 5, created := 0, modified := 0, url := "abc123"
                        file_size := 10, bitrate := 20, profile := 1, video := 2 }]
    videoImages := []
    subtitles := [sampleSubtitle] }

/-! ### Theorems -/

/-- C1: the claim says `get_or_create_with_validation` returns the newly
created record paired with `created=true` on the create path.  The code
persists the row but returns `None` there, because `create_with_validation`
has no `return` statement — contradicting the method's own docstring
("it returns a tuple of (object, created)").  Evaluating the code at a
concrete input: the first call yields `(None, True)` even though the row was
persisted, and only the second call yields the record, with `created=false`
and no duplicate row. -/
theorem get_or_create_with_validation_returns_none_on_create :
    (courseVideoGetOrCreate [] sampleCourseVideo).2 = .ok (none, true) ∧
    (courseVideoGetOrCreate [] sampleCourseVideo).1 = [sampleCourseVideo] ∧
    (courseVideoGetOrCreate [sampleCourseVideo] sampleCourseVideo).2
      = .ok (some sampleCourseVideo, false) :=
  ⟨rfl, rfl, rfl⟩

/-- C2: whenever the model-level `full_clean` of the candidate rejects it
(a regex, min-value, required or uniqueness rule is violated),
`create_with_validation` surfaces that `ValidationError` — a type distinct
from the storage-layer `DbError` — and the table is returned unchanged:
validation runs before any write. -/
theorem create_with_validation_rejects_without_write {α : Type}
    (full_clean : α → List α → Option ValidationError) (rows : List α) (x : α)
    (e : ValidationError) (h : full_clean x rows = some e) :
    create_with_validation full_clean rows x = (rows, .error e) := by
  simp [create_with_validation, h]

/-- Witness for C2: a `CourseVideo` candidate with a blank `course_id` fails
validation and the (empty) table is unchanged. -/
theorem create_with_validation_rejects_without_write_witness :
    CourseVideo.full_clean { id := 0, course_id := "", video := 0, is_hidden := false } []
        = some (.blank "course_id") ∧
    create_with_validation CourseVideo.full_clean []
        { id := 0, course_id := "", video := 0, is_hidden := false }
      = ([], .error (.blank "course_id")) :=
  ⟨by decide,
   create_with_validation_rejects_without_write CourseVideo.full_clean []
     { id := 0, course_id := "", video := 0, is_hidden := false }
     (.blank "course_id") (by decide)⟩

/-- C7: `Subtitle.content_type` is `"application/json"` exactly when `fmt`
is `"sjson"` and `"text/plain"` for every other `fmt` value; being a plain
function of the row, it modifies nothing. -/
theorem content_type_sjson_json_else_text (s : SubtitleRec) :
    (s.fmt = "sjson" → Subtitle.content_type s = "application/json") ∧
    (s.fmt ≠ "sjson" → Subtitle.content_type s = "text/plain") := by
  constructor <;> intro h <;> simp [Subtitle.content_type, h]

/-- Witness for C7: a subtitle with `fmt = "sjson"` reports
`"application/json"`. -/
theorem content_type_sjson_json_else_text_witness :
    sampleSubtitle.fmt = "sjson" ∧
    Subtitle.content_type sampleSubtitle = "application/json" :=
  ⟨rfl, (content_type_sjson_json_else_text sampleSubtitle).1 rfl⟩

/-- C10: the starred, fully anchored character class of `URL_REGEX` accepts
the empty string, so an empty `profile_name` or `edx_video_id` is rejected
by the separate required-field (non-blank) check, not by the regex rule. -/
theorem url_regex_accepts_empty_string :
    urlRegexMatch "" = true ∧
    Profile.clean_profile_name "" = some (.blank "profile_name") ∧
    Profile.clean_profile_name "" ≠ some (.invalidChars "profile_name") ∧
    Video.clean_edx_video_id "" = some (.blank "edx_video_id") ∧
    Video.clean_edx_video_id "" ≠ some (.invalidChars "edx_video_id") := by
  decide

/-- C8: with `unique_together = ("course_id", "video")`, inserting a pair
into a table that does not yet contain it succeeds, and a second insert of
an identical (`course_id`, `video`) pair fails with a uniqueness violation,
leaving exactly one row with that pair. -/
theorem course_video_unique_together (rows : List CourseVideoRec)
    (cv cv' : CourseVideoRec)
    (h0 : ∀ r ∈ rows, ¬(r.course_id = cv.course_id ∧ r.video = cv.video))
    (h1 : cv'.course_id = cv.course_id) (h2 : cv'.video = cv.video) :
    CourseVideo.insert rows cv = .ok (rows ++ [cv]) ∧
    CourseVideo.insert (rows ++ [cv]) cv' = .error .uniqueViolation ∧
    ((rows ++ [cv]).filter
        (fun r => r.course_id == cv.course_id && r.video == cv.video)).length = 1 := by
  have hfil : rows.filter (fun r => r.course_id == cv.course_id && r.video == cv.video) = [] := by
    rw [List.filter_eq_nil_iff]
    intro r hr
    simpa using h0 r hr
  have hany : rows.any (fun r => r.course_id == cv.course_id && r.video == cv.video) = false := by
    simp only [List.any_eq_false]
    intro r hr
    simpa using h0 r hr
  refine ⟨?_, ?_, ?_⟩
  · simp [CourseVideo.insert, hany]
  · simp [CourseVideo.insert, h1, h2]
  · rw [List.filter_append, hfil]
    simp

/-- Witness for C8: a concrete duplicate pair is rejected with exactly one
row remaining. -/
theorem course_video_unique_together_witness :
    (∀ r ∈ ([] : List CourseVideoRec),
        ¬(r.course_id = sampleCourseVideo.course_id ∧ r.video = sampleCourseVideo.video)) ∧
    (CourseVideo.insert [] sampleCourseVideo = .ok [sampleCourseVideo] ∧
     CourseVideo.insert [sampleCourseVideo]
        { id := 9, course_id := "course-v1", video := 1, is_hidden := true }
        = .error .uniqueViolation ∧
     ((([] : List CourseVideoRec) ++ [sampleCourseVideo]).filter
        (fun r => r.course_id == sampleCourseVideo.course_id
            && r.video == sampleCourseVideo.video)).length = 1) :=
  ⟨by simp,
   course_video_unique_together []
     sampleCourseVideo
     { id := 9, course_id := "course-v1", video := 1, is_hidden := true }
     (by simp) rfl rfl⟩

/-- C6: the post-save observer fires on every `Video.save`; on an insertion
it logs one informational record carrying the video's `edx_video_id` and
its status, and on an update it logs one informational record carrying the
current status and the `edx_video_id` — built from the instance's current
fields only, with no reference to the prior stored status. -/
theorem video_post_save_logging (videos : List VideoRec) (log : List LogRecord) (v : VideoRec) :
    ((∀ r ∈ videos, r.id ≠ v.id) →
        (Video.save videos log v).2
          = log ++ [{ level := "INFO", msg := videoCreatedMsg v.edx_video_id v.status }]) ∧
    ((∃ r ∈ videos, r.id = v.id) →
        (Video.save videos log v).2
          = log ++ [{ level := "INFO", msg := statusChangedMsg v.status v.edx_video_id }]) := by
  constructor
  · intro h
    have hall : videos.all (fun r => !(r.id == v.id)) = true := by
      rw [List.all_eq_true]
      intro r hr
      simpa using h r hr
    simp [Video.save, video_status_update_callback, hall]
  · rintro ⟨r, hr, hid⟩
    have hall : videos.all (fun r => !(r.id == v.id)) = false := by
      rw [Bool.eq_false_iff]
      intro hc
      rw [List.all_eq_true] at hc
      have := hc r hr
      simp [hid] at this
    simp [Video.save, video_status_update_callback, hall]

/-- Witness for C6: saving a fresh video logs the creation record. -/
theorem video_post_save_logging_witness :
    (∀ r ∈ ([] : List VideoRec), r.id ≠ sampleVideo.id) ∧
    (Video.save [] [] sampleVideo).2
      = [] ++ [{ level := "INFO"
                 msg := videoCreatedMsg sampleVideo.edx_video_id sampleVideo.status }] :=
  ⟨by simp, (video_post_save_logging [] [] sampleVideo).1 (by simp)⟩

/-- C9: the observer branches only on the `created` flag, so an update save
emits the "Status changed" record even when the stored prior status equals
the saved status (no status comparison happens). -/
theorem status_changed_logged_even_if_status_unchanged
    (videos : List VideoRec) (log : List LogRecord) (v prior : VideoRec)
    (hmem : prior ∈ videos) (hid : prior.id = v.id) (_hstatus : prior.status = v.status) :
    (Video.save videos log v).2
      = log ++ [{ level := "INFO", msg := statusChangedMsg v.status v.edx_video_id }] := by
  have hall : videos.all (fun r => !(r.id == v.id)) = false := by
    rw [Bool.eq_false_iff]
    intro hc
    rw [List.all_eq_true] at hc
    have := hc prior hmem
    simp [hid] at this
  simp [Video.save, video_status_update_callback, hall]

/-- Witness for C9: re-saving a video whose status is unchanged still logs
the "Status changed" record. -/
theorem status_changed_logged_even_if_status_unchanged_witness :
    sampleVideo ∈ [sampleVideo] ∧ sampleVideo.id = sampleVideo.id ∧
    sampleVideo.status = sampleVideo.status ∧
    (Video.save [sampleVideo] [] sampleVideo).2
      = [] ++ [{ level := "INFO"
                 msg := statusChangedMsg sampleVideo.status sampleVideo.edx_video_id }] :=
  ⟨by simp, rfl, rfl,
   status_changed_logged_even_if_status_unchanged [sampleVideo] [] sampleVideo sampleVideo
     (by simp) rfl rfl⟩

/-- C5: `create_or_update` scopes the supplied image byte stream with
`closing`, so the stream is closed before control returns to the caller on
every path — for any backend save behaviour, succeeding or raising, and for
any prior state. -/
theorem create_or_update_closes_stream
    (save : String → Nat → List (String × Nat) → Except StorageError (List (String × Nat)))
    (st : ImageStore) (course_video : Nat) (image_data : UploadStream)
    (file_name : String) (now : Nat) :
    ((VideoImage.create_or_update save st course_video image_data file_name now).2).closed
      = true := rfl

/-- C4: the stored file name is rewritten to the integer seconds-since-epoch
of the record's `modified` timestamp (as read just before the rename)
followed by the original file extension; two attach operations for the same
`CourseVideo` within the same second (and with the same original extension)
therefore compute the same file name, and the second silently overwrites the
first in storage instead of erroring. -/
theorem create_or_update_same_second_overwrites
    (cv d1 d2 t : Nat) (fn1 fn2 : String)
    (hext : (splitext fn1).2 = (splitext fn2).2) :
    ∃ st1 vi1 st2 vi2,
      VideoImage.create_or_update storageSave emptyImageStore cv ⟨d1, false⟩ fn1 t
        = (.ok (st1, vi1, true), ⟨d1, true⟩) ∧
      vi1.image = strftimeSeconds t ++ (splitext fn1).2 ∧
      st1.files = [(vi1.image, d1)] ∧
      VideoImage.create_or_update storageSave st1 cv ⟨d2, false⟩ fn2 t
        = (.ok (st2, vi2, false), ⟨d2, true⟩) ∧
      vi2.image = vi1.image ∧
      st2.files = [(vi1.image, d2)] ∧
      st2.rows = st1.rows := by
  refine ⟨{ rows := [⟨0, cv, strftimeSeconds t ++ (splitext fn1).2, t, t⟩]
            files := [(strftimeSeconds t ++ (splitext fn1).2, d1)], nextId := 1 },
          ⟨0, cv, strftimeSeconds t ++ (splitext fn1).2, t, t⟩,
          { rows := [⟨0, cv, strftimeSeconds t ++ (splitext fn1).2, t, t⟩]
            files := [(strftimeSeconds t ++ (splitext fn1).2, d2)], nextId := 1 },
          ⟨0, cv, strftimeSeconds t ++ (splitext fn1).2, t, t⟩,
          ?_, rfl, rfl, ?_, rfl, rfl, rfl⟩
  · simp [VideoImage.create_or_update, emptyImageStore, withClosing, closeStream,
      storageSave, updateImageRow]
  · simp [VideoImage.create_or_update, withClosing, closeStream, storageSave,
      updateImageRow, ← hext]

/-- Witness for C4: two attaches of `.png` files to the same course video at
the same second collide on the name "100.png" and the second content wins. -/
theorem create_or_update_same_second_overwrites_witness :
    (splitext "first.png").2 = (splitext "second.png").2 ∧
    (∃ st1 vi1 st2 vi2,
      VideoImage.create_or_update storageSave emptyImageStore 7 ⟨11, false⟩ "first.png" 100
        = (.ok (st1, vi1, true), ⟨11, true⟩) ∧
      vi1.image = strftimeSeconds 100 ++ (splitext "first.png").2 ∧
      st1.files = [(vi1.image, 11)] ∧
      VideoImage.create_or_update storageSave st1 7 ⟨12, false⟩ "second.png" 100
        = (.ok (st2, vi2, false), ⟨12, true⟩) ∧
      vi2.image = vi1.image ∧
      st2.files = [(vi1.image, 12)] ∧
      st2.rows = st1.rows) :=
  ⟨rfl, create_or_update_same_second_overwrites 7 11 12 100 "first.png" "second.png" rfl⟩

/-- Unfolding of the queryset condition of `by_youtube_id` into the
existence of a matching encoding row joined to the "youtube" profile. -/
theorem hasYoutubeEncoding_iff (db : Db) (v : VideoRec) (yid : String) :
    hasYoutubeEncoding db v yid = true ↔
      ∃ ev ∈ db.encodedVideos, ev.video = v.id ∧ ev.url = yid ∧
        ∃ p ∈ db.profiles, p.id = ev.profile ∧ p.profile_name = "youtube" := by
  simp [hasYoutubeEncoding, List.any_eq_true, Bool.and_eq_true, beq_iff_eq, and_assoc]

/-- C3: `by_youtube_id` returns exactly the videos having at least one
`EncodedVideo` with profile named exactly "youtube" and `url` equal to the
given id — every returned entry is such a video with its encodings, course
links and subtitles eagerly loaded, every such video is returned, and when
no video matches the result is the empty list (the function is total, so it
never raises). -/
theorem by_youtube_id_returns_matching_videos (db : Db) (youtube_id : String) :
    (∀ r ∈ Video.by_youtube_id db youtube_id,
        r.video ∈ db.videos ∧
        (∃ ev ∈ db.encodedVideos, ev.video = r.video.id ∧ ev.url = youtube_id ∧
            ∃ p ∈ db.profiles, p.id = ev.profile ∧ p.profile_name = "youtube") ∧
        r.encoded_videos = db.encodedVideos.filter (fun ev => ev.video == r.video.id) ∧
        r.courses = db.courseVideos.filter (fun c => c.video == r.video.id) ∧
        r.subtitles = db.subtitles.filter (fun s => s.video == r.video.id)) ∧
    (∀ v ∈ db.videos,
        (∃ ev ∈ db.encodedVideos, ev.video = v.id ∧ ev.url = youtube_id ∧
            ∃ p ∈ db.profiles, p.id = ev.profile ∧ p.profile_name = "youtube") →
        ∃ r ∈ Video.by_youtube_id db youtube_id, r.video = v) ∧
    ((∀ v ∈ db.videos,
        ¬∃ ev ∈ db.encodedVideos, ev.video = v.id ∧ ev.url = youtube_id ∧
            ∃ p ∈ db.profiles, p.id = ev.profile ∧ p.profile_name = "youtube") →
        Video.by_youtube_id db youtube_id = []) := by
  refine ⟨?_, ?_, ?_⟩
  · intro r hr
    simp only [Video.by_youtube_id, List.mem_map, List.mem_filter] at hr
    obtain ⟨v, ⟨hv, hcond⟩, rfl⟩ := hr
    exact ⟨hv, (hasYoutubeEncoding_iff db v youtube_id).mp hcond, rfl, rfl, rfl⟩
  · intro v hv hcond
    refine ⟨{ video := v
              encoded_videos := db.encodedVideos.filter (fun ev => ev.video == v.id)
              courses := db.courseVideos.filter (fun c => c.video == v.id)
              subtitles := db.subtitles.filter (fun s => s.video == v.id) }, ?_, rfl⟩
    simp only [Video.by_youtube_id, List.mem_map]
    exact ⟨v, List.mem_filter.mpr ⟨hv, (hasYoutubeEncoding_iff db v youtube_id).mpr hcond⟩, rfl⟩
  · intro h
    have hnil : db.videos.filter (fun v => hasYoutubeEncoding db v youtube_id) = [] := by
      rw [List.filter_eq_nil_iff]
      intro v hv
      simp [hasYoutubeEncoding_iff, h v hv]
    simp [Video.by_youtube_id, hnil]

/-- Witness for C3: in a concrete database the video encoded under the
"youtube" profile with url "abc123" is returned by `by_youtube_id`. -/
theorem by_youtube_id_returns_matching_videos_witness :
    sampleVideo ∈ sampleDb.videos ∧
    (∃ ev ∈ sampleDb.encodedVideos, ev.video = sampleVideo.id ∧ ev.url = "abc123" ∧
        ∃ p ∈ sampleDb.profiles, p.id = ev.profile ∧ p.profile_name = "youtube") ∧
    ∃ r ∈ Video.by_youtube_id sampleDb "abc123", r.video = sampleVideo :=
  ⟨by decide, by decide,
   (by_youtube_id_returns_matching_videos sampleDb "abc123").2.1 sampleVideo
     (by decide) (by decide)⟩
